import Mathlib

/-!
Shallow embedding of the positional-record decoding layer of the
`@taichunmin/bitfinex` REST client (files under `src/zod/` and the
response/nonce plumbing in `src/bitfinex.ts`), together with theorems
checking the documented behaviour of that layer.

Conventions used throughout the embedding:
* JavaScript runtime values arriving from the exchange are modelled by the
  inductive type `JsonValue`; JS `undefined` is modelled by `Option` at the
  places where the source can observe the difference (absent object keys,
  out-of-range array reads before `?? null`).
* JS numbers are modelled by `ℚ`; the `z.number().int()` check becomes a
  denominator-one test.
* `Date` values are modelled by their epoch-millisecond value (a `ℚ`),
  which is exactly how the source converts them back (`transformMts`).
* Zod parsing is modelled in `Except String`; only success/failure and the
  produced value matter, not the error text.
-/

set_option autoImplicit false

/-- A JSON runtime value as delivered by the exchange. -/
inductive JsonValue where
  | null
  | bool (b : Bool)
  | num (q : ℚ)
  | str (s : String)
  | arr (xs : List JsonValue)


/-- Model of `output?.[idx] ?? null` on an array: an out-of-range index
yields JS `undefined`, which `?? null` collapses to `null`. -/
def getAtNull (xs : List JsonValue) (i : Nat) : JsonValue :=
  (xs.get? i).getD .null

/-- Model of `record[idx] ?? null` for one raw record of unknown shape:
arrays index positionally; strings index to one-character strings; property
access on anything else gives `undefined`, hence `null` after `?? null`. -/
def recordGet : JsonValue → Nat → JsonValue
  | .arr xs, i => getAtNull xs i
  | .str s, i =>
    match s.data.get? i with
    | some c => .str (String.singleton c)
    | none => .null
  | _, _ => .null

/-- An intermediate JS object (as built by `_.mapValues(INDEX, ...)`),
modelled as an association list; a missing key is JS `undefined`. -/
abbrev JObject := List (String × JsonValue)

/-- JS property read `o[k]`: `none` models `undefined`. -/
def getField (o : JObject) (k : String) : Option JsonValue :=
  match o with
  | [] => none
  | kv :: rest => if kv.1 = k then some kv.2 else getField rest k

/-- Model of `_.mapValues(INDEX, idx => output?.[idx] ?? null)` over an index table. -/
def mapIndexObj (idx : List (String × Nat)) (xs : List JsonValue) : JObject :=
  idx.map fun ki => (ki.1, getAtNull xs ki.2)

/-- Model of `_.mapValues(INDEX, idx => rec[idx] ?? null)` where `rec` is one raw
record of the batch (any JS value). -/
def mapIndexObjRec (idx : List (String × Nat)) (rec : JsonValue) : JObject :=
  idx.map fun ki => (ki.1, recordGet rec ki.2)

/-- JS `String.prototype.trim()`: strip leading and trailing whitespace
(implemented structurally on the character list so that concrete instances
evaluate inside proofs). -/
def jsTrim (s : String) : String :=
  ⟨((s.data.dropWhile Char.isWhitespace).reverse.dropWhile
      Char.isWhitespace).reverse⟩

/-- JS `s.slice(1)`: drop the first character. -/
def jsSlice1 (s : String) : String :=
  ⟨s.data.drop 1⟩

/-- JS `s.toUpperCase()` on the ASCII identifiers used by the client. -/
def jsToUpper (s : String) : String :=
  ⟨s.data.map Char.toUpper⟩

/-- JS `array.join(sep)` for an array of strings. -/
def jsJoin (sep : String) (l : List String) : String :=
  ⟨((l.map String.data).intersperse sep.data).flatten⟩

/-- Character class of the source regexes `/^[\w:]+$/` (JS `\w` plus `:`). -/
def isWordColonChar (c : Char) : Bool :=
  c.isAlpha || c.isDigit || c = '_' || c = ':'

/-- Full match of `/^[\w:]+$/`. -/
def matchKeyRegex (s : String) : Bool :=
  !s.data.isEmpty && s.data.all isWordColonChar

/-- Full match of `/^t[\w:]+$/` (or `/^f[\w:]+$/`): a fixed first character
followed by at least one word-or-colon character. -/
def matchTaggedRegex (p : Char) (s : String) : Bool :=
  match s.data with
  | [] => false
  | c :: rest => c = p && !rest.isEmpty && rest.all isWordColonChar

/-- JS `s[0] === c` (an empty string gives `undefined`, which is not `c`). -/
def jsFirstCharIs (c : Char) (s : String) : Bool :=
  s.data.head? = some c

/-- Model of `z.number()` applied to an object field (`none` = `undefined`). -/
def zNumber : Option JsonValue → Except String ℚ
  | some (.num q) => .ok q
  | _ => .error "expected number"

/-- Model of `z.number().int()` applied to an object field. -/
def zInt : Option JsonValue → Except String ℚ
  | some (.num q) => if q.den = 1 then .ok q else .error "expected int"
  | _ => .error "expected number"

/-- Model of `z.string()` applied to an object field. -/
def zString : Option JsonValue → Except String String
  | some (.str s) => .ok s
  | _ => .error "expected string"

/-- Model of `z.string().trim().regex(re)` applied to an object field: the value is
trimmed first and the regex is checked on the trimmed value, which is also
the value produced. -/
def zStrTrimRegex (re : String → Bool) : Option JsonValue → Except String String
  | some (.str s) => if re (jsTrim s) then .ok (jsTrim s) else .error "regex mismatch"
  | _ => .error "expected string"

/-- Model of `z.coerce.date()` applied to an object field, i.e. `new Date(x)` followed
by a validity check, with the result kept as epoch milliseconds.  `null`
coerces to the epoch (`new Date(null)` is time 0), numbers are taken as
epoch milliseconds, booleans coerce to 0/1.  `undefined` gives an invalid
date; strings go through JS date-string parsing, which rejects every string
occurring in the record shapes modelled here, so they are mapped to failure
like the other invalid-date cases. -/
def zCoerceDate : Option JsonValue → Except String ℚ
  | some (.num q) => .ok q
  | some .null => .ok 0
  | some (.bool b) => .ok (if b then 1 else 0)
  | _ => .error "invalid date"

/-- Model of `_.round(x, 8)` from lodash: round half up at the eighth decimal place
(the `Math.round` convention, i.e. `⌊x·10⁸ + 1/2⌋ / 10⁸`). -/
def round8 (q : ℚ) : ℚ :=
  (⌊q * 100000000 + 1/2⌋ : ℚ) / 100000000

namespace V2Ticker

/-- Model of `PAIR_INDEX` of `src/zod/v2Ticker.ts`. -/
def PAIR_INDEX : List (String × Nat) :=
  [("symbol", 0), ("bidPrice", 1), ("bidSize", 2), ("askPrice", 3),
   ("askSize", 4), ("dailyChange", 5), ("dailyChangeRelative", 6),
   ("lastPrice", 7), ("volume", 8), ("high", 9), ("low", 10)]

/-- Model of `CURRENCY_INDEX` of `src/zod/v2Ticker.ts` (slots 14 and 15 unmapped). -/
def CURRENCY_INDEX : List (String × Nat) :=
  [("symbol", 0), ("frr", 1), ("bidPrice", 2), ("bidPeriod", 3),
   ("bidSize", 4), ("askPrice", 5), ("askPeriod", 6), ("askSize", 7),
   ("dailyChange", 8), ("dailyChangePerc", 9), ("lastPrice", 10),
   ("volume", 11), ("high", 12), ("low", 13), ("frrAmountAvailable", 16)]

/-- Decoded trading-pair ticker (`ZodOutputPair` output shape). -/
structure OutputPair where
  symbol : String
  bidPrice : ℚ
  bidSize : ℚ
  askPrice : ℚ
  askSize : ℚ
  dailyChange : ℚ
  dailyChangeRelative : ℚ
  lastPrice : ℚ
  volume : ℚ
  high : ℚ
  low : ℚ
  pair : String


/-- Decoded funding-currency ticker (`ZodOutputCurrency` output shape). -/
structure OutputCurrency where
  symbol : String
  frr : ℚ
  bidPrice : ℚ
  bidPeriod : ℚ
  bidSize : ℚ
  askPrice : ℚ
  askPeriod : ℚ
  askSize : ℚ
  dailyChange : ℚ
  dailyChangePerc : ℚ
  lastPrice : ℚ
  volume : ℚ
  high : ℚ
  low : ℚ
  frrAmountAvailable : ℚ
  currency : String
  dpr : ℚ
  apr : ℚ


/-- Model of `ZodOutputPair.parse` on an intermediate object, including the
transform appending `pair = symbol.slice(1)`. -/
def parsePairObj (o : JObject) : Except String OutputPair := do
  let symbol ← zStrTrimRegex (matchTaggedRegex 't') (getField o "symbol")
  let bidPrice ← zNumber (getField o "bidPrice")
  let bidSize ← zNumber (getField o "bidSize")
  let askPrice ← zNumber (getField o "askPrice")
  let askSize ← zNumber (getField o "askSize")
  let dailyChange ← zNumber (getField o "dailyChange")
  let dailyChangeRelative ← zNumber (getField o "dailyChangeRelative")
  let lastPrice ← zNumber (getField o "lastPrice")
  let volume ← zNumber (getField o "volume")
  let high ← zNumber (getField o "high")
  let low ← zNumber (getField o "low")
  .ok { symbol, bidPrice, bidSize, askPrice, askSize, dailyChange,
        dailyChangeRelative, lastPrice, volume, high, low,
        pair := jsSlice1 symbol }

/-- Model of `ZodOutputCurrency.parse` on an intermediate object, including the
transform appending `currency`, `dpr = _.round(frr*100, 8)` and
`apr = _.round(frr*365*100, 8)`. -/
def parseCurrencyObj (o : JObject) : Except String OutputCurrency := do
  let symbol ← zStrTrimRegex (matchTaggedRegex 'f') (getField o "symbol")
  let frr ← zNumber (getField o "frr")
  let bidPrice ← zNumber (getField o "bidPrice")
  let bidPeriod ← zInt (getField o "bidPeriod")
  let bidSize ← zNumber (getField o "bidSize")
  let askPrice ← zNumber (getField o "askPrice")
  let askPeriod ← zInt (getField o "askPeriod")
  let askSize ← zNumber (getField o "askSize")
  let dailyChange ← zNumber (getField o "dailyChange")
  let dailyChangePerc ← zNumber (getField o "dailyChangePerc")
  let lastPrice ← zNumber (getField o "lastPrice")
  let volume ← zNumber (getField o "volume")
  let high ← zNumber (getField o "high")
  let low ← zNumber (getField o "low")
  let frrAmountAvailable ← zNumber (getField o "frrAmountAvailable")
  .ok { symbol, frr, bidPrice, bidPeriod, bidSize, askPrice, askPeriod,
        askSize, dailyChange, dailyChangePerc, lastPrice, volume, high, low,
        frrAmountAvailable, currency := jsSlice1 symbol,
        dpr := round8 (frr * 100), apr := round8 (frr * 365 * 100) }

/-- The decoded ticker (`ZodOutput`, a union of the two shapes). -/
inductive Output where
  | pair (p : OutputPair)
  | currency (c : OutputCurrency)


/-- Model of `z.union([ZodOutputPair, ZodOutputCurrency]).parse`: options are tried
in declaration order and the first success wins. -/
def zodOutputParse (o : JObject) : Except String Output :=
  match parsePairObj o with
  | .ok p => .ok (.pair p)
  | .error _ =>
    match parseCurrencyObj o with
    | .ok c => .ok (.currency c)
    | .error e => .error e

/-- Model of `parseOutput` of `src/zod/v2Ticker.ts`: the intermediate object spreads
the pair mapping when the array length is 11 and the currency mapping when
it is 17 (any other length leaves it empty), then the union is parsed. -/
def parseOutput (output : List JsonValue) : Except String Output :=
  zodOutputParse
    ((if output.length = 11 then mapIndexObj PAIR_INDEX output else []) ++
     (if output.length = 17 then mapIndexObj CURRENCY_INDEX output else []))

end V2Ticker

namespace V2Ticker

/-- Raw caller input of the ticker endpoint: a JS object that may carry any
of the selector keys `pair`, `currency`, `symbol` (absent = `undefined`).
Keys outside a given object schema are stripped by zod, not rejected. -/
structure InputRaw where
  pair : Option String
  currency : Option String
  symbol : Option String

/-- Model of `ZodInputPair`: requires `pair` (trimmed, `/^[\w:]+$/`, uppercased) and
produces the symbol string `t${pair}`. -/
def zodInputPair (i : InputRaw) : Except String String :=
  match i.pair with
  | some s =>
    if matchKeyRegex (jsTrim s) then .ok ("t" ++ jsToUpper (jsTrim s))
    else .error "regex mismatch"
  | none => .error "pair required"

/-- Model of `ZodInputCurrency`: requires `currency` and produces `f${currency}`. -/
def zodInputCurrency (i : InputRaw) : Except String String :=
  match i.currency with
  | some s =>
    if matchKeyRegex (jsTrim s) then .ok ("f" ++ jsToUpper (jsTrim s))
    else .error "regex mismatch"
  | none => .error "currency required"

/-- Model of `ZodInputSymbol`: requires `symbol` (trimmed, not uppercased). -/
def zodInputSymbol (i : InputRaw) : Except String String :=
  match i.symbol with
  | some s =>
    if matchKeyRegex (jsTrim s) then .ok (jsTrim s)
    else .error "regex mismatch"
  | none => .error "symbol required"

/-- Model of `ZodInput = z.union([ZodInputPair, ZodInputCurrency, ZodInputSymbol])`:
the options are tried in declaration order, first success wins. -/
def zodInputParse (i : InputRaw) : Except String String :=
  match zodInputPair i with
  | .ok v => .ok v
  | .error _ =>
    match zodInputCurrency i with
    | .ok v => .ok v
    | .error _ => zodInputSymbol i

end V2Ticker

namespace V2TradesHist

/-- Model of `PAIR_INDEX` of `src/zod/v2TradesHist.ts`. -/
def PAIR_INDEX : List (String × Nat) :=
  [("id", 0), ("mts", 1), ("amount", 2), ("price", 3)]

/-- Model of `CURRENCY_INDEX` of `src/zod/v2TradesHist.ts`. -/
def CURRENCY_INDEX : List (String × Nat) :=
  [("id", 0), ("mts", 1), ("amount", 2), ("rate", 3), ("period", 4)]

/-- Decoded trading-pair trade (`ZodOutputPair` output shape). -/
structure OutputPair where
  amount : ℚ
  id : ℚ
  mts : ℚ
  price : ℚ

/-- Decoded funding trade (`ZodOutputCurrency` output shape). -/
structure OutputCurrency where
  amount : ℚ
  id : ℚ
  mts : ℚ
  period : ℚ
  rate : ℚ

/-- Model of `ZodOutputPair.parse` on the object mapped from one raw record. -/
def parsePairRec (rec : JsonValue) : Except String OutputPair := do
  let o := mapIndexObjRec PAIR_INDEX rec
  let amount ← zNumber (getField o "amount")
  let id ← zInt (getField o "id")
  let mts ← zCoerceDate (getField o "mts")
  let price ← zNumber (getField o "price")
  .ok { amount, id, mts, price }

/-- Model of `ZodOutputCurrency.parse` on the object mapped from one raw record. -/
def parseCurrencyRec (rec : JsonValue) : Except String OutputCurrency := do
  let o := mapIndexObjRec CURRENCY_INDEX rec
  let amount ← zNumber (getField o "amount")
  let id ← zInt (getField o "id")
  let mts ← zCoerceDate (getField o "mts")
  let period ← zInt (getField o "period")
  let rate ← zNumber (getField o "rate")
  .ok { amount, id, mts, period, rate }

/-- The decoded batch (`ZodOutput`, a union of the two batch shapes). -/
inductive Output where
  | pairs (l : List OutputPair)
  | currencys (l : List OutputCurrency)

/-- Model of `output[0].length` as observed by the dispatch: only arrays and strings
have a numeric `length`; on every other head value the comparison with 4
or 5 is false, so the function falls through to the failure branch. -/
def headLen : JsonValue → Option Nat
  | .arr xs => some xs.length
  | .str s => some s.data.length
  | _ => none

/-- Model of `parseOutput` of `src/zod/v2TradesHist.ts`: an empty batch is returned
as `[]`; otherwise the first record's length picks the mapping (4 slots =
trading-pair trade, 5 = funding trade) applied to every record, and any
other length throws `unable to parse output`. -/
def parseOutput (output : List JsonValue) : Except String Output :=
  if output.length = 0 then .ok (.pairs [])
  else if headLen (output.headD .null) = some 4 then
    (output.mapM parsePairRec).map .pairs
  else if headLen (output.headD .null) = some 5 then
    (output.mapM parseCurrencyRec).map .currencys
  else .error "unable to parse output"

end V2TradesHist

namespace V2TickersHist

/-- How the caller may supply `symbols`: an array of strings or one string. -/
inductive SymbolsRaw where
  | strs (l : List String)
  | str (s : String)

/-- Raw caller input of the tickers-history endpoint. -/
structure InputRaw where
  symbols : Option SymbolsRaw
  start_ : Option ℚ
  end_ : Option ℚ
  limit : Option ℚ

/-- Normalized tickers-history input. -/
structure Input where
  symbols : String
  start_ : Option ℚ
  end_ : Option ℚ
  limit : ℚ

/-- The `symbols` union: an array is per-element trimmed, checked nonempty
and joined with `,`; a string is trimmed; absence defaults to `"ALL"`. -/
def zodSymbols : Option SymbolsRaw → Except String String
  | none => .ok "ALL"
  | some (.strs l) =>
    if 1 ≤ l.length then .ok (jsJoin "," (l.map jsTrim)) else .error "min 1"
  | some (.str s) => .ok (jsTrim s)

/-- Model of `z.date().transform(transformMts).optional()`: the caller passes a
`Date` (modelled by its epoch milliseconds), which is passed through. -/
def zOptDate (v : Option ℚ) : Except String (Option ℚ) :=
  .ok v

/-- Model of `z.number().int().max(maxN).default(dflt)` on the `limit` field. -/
def zLimitD (maxN dflt : ℚ) (v : Option ℚ) : Except String ℚ :=
  match v with
  | none => .ok dflt
  | some q =>
    if q.den = 1 then
      if q ≤ maxN then .ok q else .error "limit too large"
    else .error "expected int"

/-- Model of `z.number().int().max(maxN).optional()` on the `limit` field. -/
def zLimitO (maxN : ℚ) (v : Option ℚ) : Except String (Option ℚ) :=
  match v with
  | none => .ok none
  | some q =>
    if q.den = 1 then
      if q ≤ maxN then .ok (some q) else .error "limit too large"
    else .error "expected int"

/-- Model of `ZodInput` of the tickers-history module (`limit` capped at 250 with
default 100). -/
def zodInputParse (r : InputRaw) : Except String Input := do
  let symbols ← zodSymbols r.symbols
  let start_ ← zOptDate r.start_
  let end_ ← zOptDate r.end_
  let limit ← zLimitD 250 100 r.limit
  .ok { symbols, start_, end_, limit }

/-- Model of `OUTPUT_INDEX` of the tickers-history decoder: 4 mapped positions, the
last at index 12 (a full record has 13 slots). -/
def OUTPUT_INDEX : List (String × Nat) :=
  [("symbol", 0), ("bidPrice", 1), ("askPrice", 3), ("mts", 12)]

/-- Decoded ticker-history record; `pair` is only added by the transform
when the symbol starts with `t`. -/
structure OutputTickerHist where
  symbol : String
  bidPrice : ℚ
  askPrice : ℚ
  mts : ℚ
  pair : Option String

/-- Model of `ZodOutputTickerHist.parse` on the object mapped from one raw record
(`hist[idx] ?? null`), including the conditional `pair` transform. -/
def parseHistRec (rec : JsonValue) : Except String OutputTickerHist := do
  let o := mapIndexObjRec OUTPUT_INDEX rec
  let symbol ← zStrTrimRegex matchKeyRegex (getField o "symbol")
  let bidPrice ← zNumber (getField o "bidPrice")
  let askPrice ← zNumber (getField o "askPrice")
  let mts ← zCoerceDate (getField o "mts")
  .ok { symbol, bidPrice, askPrice, mts,
        pair := if jsFirstCharIs 't' symbol then some (jsSlice1 symbol)
                else none }

/-- Model of `parseOutput` of the tickers-history decoder: map every record. -/
def parseOutput (output : List JsonValue) :
    Except String (List OutputTickerHist) :=
  output.mapM parseHistRec

end V2TickersHist

namespace V2FundingStats

/-- Raw caller input of the funding-stats endpoint. -/
structure InputRaw where
  currency : Option String
  start_ : Option ℚ
  end_ : Option ℚ
  limit : Option ℚ

/-- Normalized funding-stats input. -/
structure Input where
  currency : String
  start_ : Option ℚ
  end_ : Option ℚ
  limit : Option ℚ

/-- Model of `z.string().trim().regex(/^[\w:]+$/).toUpperCase().default("USD")`. -/
def zCurrencyDefaultUSD : Option String → Except String String
  | none => .ok "USD"
  | some s =>
    if matchKeyRegex (jsTrim s) then .ok (jsToUpper (jsTrim s))
    else .error "regex mismatch"

/-- Model of `ZodInput` of the funding-stats module (`limit` capped at 250,
optional). -/
def zodInputParse (r : InputRaw) : Except String Input := do
  let currency ← zCurrencyDefaultUSD r.currency
  let start_ ← V2TickersHist.zOptDate r.start_
  let end_ ← V2TickersHist.zOptDate r.end_
  let limit ← V2TickersHist.zLimitO 250 r.limit
  .ok { currency, start_, end_, limit }

/-- Model of `OUTPUT_INDEX` of the funding-stats decoder: 6 mapped positions, the
last at index 11 (a full record has 12 slots). -/
def OUTPUT_INDEX : List (String × Nat) :=
  [("mts", 0), ("frrDiv365", 3), ("avgPeriod", 4), ("amount", 7),
   ("amountUsed", 8), ("belowThreshold", 11)]

/-- Decoded funding-stats record (`ZodOutputFundingStats` output shape with
the derived `frr` and `apr` fields). -/
structure OutputFundingStats where
  mts : ℚ
  frrDiv365 : ℚ
  avgPeriod : ℚ
  amount : ℚ
  amountUsed : ℚ
  belowThreshold : ℚ
  frr : ℚ
  apr : ℚ

/-- Model of `ZodOutputFundingStats.parse` on the object mapped from one raw record,
including the transform `frr = _.round(frrDiv365*365, 8)` and
`apr = _.round(frrDiv365*133225, 8)` (`133225 = 365 * 365`). -/
def parseStatsRec (rec : JsonValue) : Except String OutputFundingStats := do
  let o := mapIndexObjRec OUTPUT_INDEX rec
  let mts ← zCoerceDate (getField o "mts")
  let frrDiv365 ← zNumber (getField o "frrDiv365")
  let avgPeriod ← zNumber (getField o "avgPeriod")
  let amount ← zNumber (getField o "amount")
  let amountUsed ← zNumber (getField o "amountUsed")
  let belowThreshold ← zNumber (getField o "belowThreshold")
  .ok { mts, frrDiv365, avgPeriod, amount, amountUsed, belowThreshold,
        frr := round8 (frrDiv365 * 365), apr := round8 (frrDiv365 * 133225) }

/-- Model of `parseOutput` of the funding-stats decoder: map every record. -/
def parseOutput (output : List JsonValue) :
    Except String (List OutputFundingStats) :=
  output.mapM parseStatsRec

end V2FundingStats

namespace V2AuthReadFundingAutoStatus

/-- Model of `OUTPUT_INDEX` of `src/zod/v2AuthReadFundingAutoStatus.ts`. -/
def OUTPUT_INDEX : List (String × Nat) :=
  [("currency", 0), ("period", 1), ("rate", 2), ("amount", 3)]

/-- Decoded auto-renew status record (`ZodOutput` object shape). -/
structure Output where
  amount : ℚ
  currency : String
  period : ℚ
  rate : ℚ

/-- Model of `parseOutput` of `src/zod/v2AuthReadFundingAutoStatus.ts`: a nil
(`null`/`undefined`, modelled by `none`) payload yields a typed `null`
(`none`); otherwise the positional mapping is validated against the
nullable object schema. -/
def parseOutput (output : Option (List JsonValue)) :
    Except String (Option Output) :=
  match output with
  | none => .ok none
  | some xs => do
    let o := mapIndexObj OUTPUT_INDEX xs
    let currency ← zString (getField o "currency")
    let period ← zInt (getField o "period")
    let rate ← zNumber (getField o "rate")
    let amount ← zNumber (getField o "amount")
    .ok (some { amount, currency, period, rate })

end V2AuthReadFundingAutoStatus

namespace V2TradesHist

/-- Raw fields shared by the three trades-history input alternatives
(`ZodInputBase` of `src/zod/v2TradesHist.ts`). -/
structure InputBaseRaw where
  end_ : Option ℚ
  limit : Option ℚ
  sort : Option String
  start_ : Option ℚ

/-- Normalized `ZodInputBase` fields. -/
structure InputBase where
  end_ : Option ℚ
  limit : ℚ
  sort : String
  start_ : Option ℚ

/-- The runtime values of `enums.BitfinexSort`. -/
def BitfinexSortValues : List String := ["+1", "-1"]

/-- Model of `ZodBitfinexSort.default(BitfinexSort.DESC)`: a native-enum check with
default `"-1"`. -/
def zSortDefaultDesc : Option String → Except String String
  | none => .ok "-1"
  | some s => if s ∈ BitfinexSortValues then .ok s else .error "invalid sort"

/-- Model of `ZodInputBase` of `src/zod/v2TradesHist.ts`: `limit` is
`z.number().int().max(10000).default(125)`. -/
def zodInputBaseParse (r : InputBaseRaw) : Except String InputBase := do
  let end_ ← V2TickersHist.zOptDate r.end_
  let limit ← V2TickersHist.zLimitD 10000 125 r.limit
  let sort ← zSortDefaultDesc r.sort
  let start_ ← V2TickersHist.zOptDate r.start_
  .ok { end_, limit, sort, start_ }

end V2TradesHist

namespace V2AuthReadFundingCreditsHist

/-- Raw caller input of the funding-credits-history endpoint. -/
structure InputRaw where
  currency : Option String
  end_ : Option ℚ
  limit : Option ℚ
  start_ : Option ℚ

/-- Normalized funding-credits-history input. -/
structure Input where
  currency : Option String
  end_ : Option ℚ
  limit : ℚ
  start_ : Option ℚ

/-- Model of `z.string().trim().regex(/^[\w:]+$/).toUpperCase().optional()`. -/
def zCurrencyOpt : Option String → Except String (Option String)
  | none => .ok none
  | some s =>
    if matchKeyRegex (jsTrim s) then .ok (some (jsToUpper (jsTrim s)))
    else .error "regex mismatch"

/-- Model of `ZodInput` of `src/zod/v2AuthReadFundingCreditsHist.ts`: `limit` is
`z.number().int().max(500).default(25)`. -/
def zodInputParse (r : InputRaw) : Except String Input := do
  let currency ← zCurrencyOpt r.currency
  let end_ ← V2TickersHist.zOptDate r.end_
  let limit ← V2TickersHist.zLimitD 500 25 r.limit
  let start_ ← V2TickersHist.zOptDate r.start_
  .ok { currency, end_, limit, start_ }

end V2AuthReadFundingCreditsHist

namespace V2AuthReadLedgersHist

/-- The numeric values of `enums.LedgersHistCategory`. -/
def LedgersHistCategoryValues : List ℚ :=
  [5, 22, 23, 25, 26, 27, 28, 29, 31, 51, 101, 104, 105, 201, 202, 204,
   207, 222, 224, 226, 228, 241, 243, 251, 254, 255, 258, 262, 401, 501,
   905, 907, 911]

/-- Raw caller input of the ledgers-history endpoint. -/
structure InputRaw where
  currency : Option String
  category : Option ℚ
  limit : Option ℚ
  start_ : Option ℚ
  end_ : Option ℚ

/-- Normalized ledgers-history input. -/
structure Input where
  currency : Option String
  category : Option ℚ
  limit : Option ℚ
  start_ : Option ℚ
  end_ : Option ℚ

/-- Model of `z.nativeEnum(enums.LedgersHistCategory).optional()`. -/
def zCategoryOpt : Option ℚ → Except String (Option ℚ)
  | none => .ok none
  | some q =>
    if q ∈ LedgersHistCategoryValues then .ok (some q)
    else .error "invalid category"

/-- Model of `ZodInput` of the ledgers-history module: `limit` is
`z.number().int().max(2500).optional()`. -/
def zodInputParse (r : InputRaw) : Except String Input := do
  let currency ← V2AuthReadFundingCreditsHist.zCurrencyOpt r.currency
  let category ← zCategoryOpt r.category
  let limit ← V2TickersHist.zLimitO 2500 r.limit
  let start_ ← V2TickersHist.zOptDate r.start_
  let end_ ← V2TickersHist.zOptDate r.end_
  .ok { currency, category, limit, start_, end_ }

end V2AuthReadLedgersHist

namespace V2Config

/-- Raw caller argument of `Bitfinex.v2Config`: one key, a list of keys, or
omitted (`none` = `undefined`). -/
inductive Opts where
  | str (s : String)
  | arr (l : List String)

/-- Model of `ZodInputConfigKey`: `z.string().trim().regex(/^[\w:]+$/)`. -/
def zodInputConfigKey (s : String) : Except String String :=
  if matchKeyRegex (jsTrim s) then .ok (jsTrim s) else .error "regex mismatch"

/-- Model of `ZodInput` of `src/zod/v2Config.ts`: a single key becomes a
one-element list, a list of keys must be nonempty and is validated
per element, and an absent argument stays absent (`optional`). -/
def zodInputParse : Option Opts → Except String (Option (List String))
  | none => .ok none
  | some (.str s) => (zodInputConfigKey s).map fun k => some [k]
  | some (.arr l) =>
    if 1 ≤ l.length then (l.mapM zodInputConfigKey).map some
    else .error "min 1"

/-- Runtime values of the `V2ConfigRequest` enumeration (the registry used
when the caller omits the argument). -/
def V2ConfigRequestConst : List String :=
  ["pub:info:currency:restrict", "pub:info:pair:fee:ovr",
   "pub:info:pair:restrict", "pub:info:tx:status",
   "pub:list:category:securities", "pub:list:currency:futures",
   "pub:list:currency:margin", "pub:list:currency:paper",
   "pub:list:currency:securities:accredited",
   "pub:list:currency:securities:portfolio", "pub:list:currency:securities",
   "pub:list:currency:stable", "pub:list:currency:viewonly",
   "pub:list:features", "pub:list:pair:cst", "pub:list:pair:exchange",
   "pub:list:pair:futures", "pub:list:pair:margin",
   "pub:list:pair:securities", "pub:map:category:futures",
   "pub:map:category:securities", "pub:map:currency:explorer",
   "pub:map:currency:label", "pub:map:currency:pool",
   "pub:map:currency:support:securities", "pub:map:currency:support:zendesk",
   "pub:map:currency:sym", "pub:map:currency:tx:fee",
   "pub:map:currency:unit", "pub:map:currency:wfx", "pub:map:pair:sym",
   "pub:map:tx:method:pool", "pub:map:tx:method", "pub:spec:futures",
   "pub:spec:margin", "pub:spec:site:maintenance", "pub:spec:ui_denom"]

/-- Result of a `v2Config` call: either a bare value (single-string-key
case, `_.first(resp)`, which is `undefined` on an empty response) or a
key-to-value map in request order (`_.zipObject`). -/
inductive Result where
  | val (v : Option JsonValue)
  | object (entries : List (String × Option JsonValue))

/-- Model of `_.zipObject(keys, values)`: pair keys with the value at the
same position; a missing position gives `undefined`. -/
def zipObject (ks : List String) (vs : List JsonValue) :
    List (String × Option JsonValue) :=
  ks.enum.map fun p => (p.2, vs.get? p.1)

/-- Model of the response mapping of `Bitfinex.v2Config`: the parsed key
list (or the full registry when absent) is zipped against the upstream
parallel array, except that a caller who passed a single string key
(`_.isString(opts)`) gets the bare first response value. -/
def v2Config (opts : Option Opts) (resp : List JsonValue) :
    Except String Result := do
  let parsed ← zodInputParse opts
  let opts1 := parsed.getD V2ConfigRequestConst
  match opts with
  | some (.str _) => .ok (.val resp.head?)
  | _ => .ok (.object (zipObject opts1 resp))

end V2Config

namespace Nonce

/-- Model of `Bitfinex.#createNonce`: the source returns the string
`` `${Date.now()}000` ``, the decimal numeral of the millisecond clock with
three zeros appended, numerically 1000 times the clock reading.  The clock
reading is made an explicit argument and the nonce is modelled by its
numeric value. -/
def createNonce (nowMs : ℕ) : ℕ :=
  nowMs * 1000

/-- Nonces produced by a sequence of authenticated calls, one millisecond
clock reading per call (`#apiPostAuth` invokes `#createNonce` exactly once
per call). -/
def authCallNonces (clocks : List ℕ) : List ℕ :=
  clocks.map createNonce

end Nonce

/-- Encoding of a raw 4-slot trading-pair trade record
`[ID, MTS, AMOUNT, PRICE]` (the id an integer). -/
def encPairTrade (t : ℤ × ℚ × ℚ × ℚ) : JsonValue :=
  .arr [.num (t.1 : ℚ), .num t.2.1, .num t.2.2.1, .num t.2.2.2]

/-- The named record the pair mapping produces for such a raw record. -/
def decPairTrade (t : ℤ × ℚ × ℚ × ℚ) : V2TradesHist.OutputPair :=
  ⟨t.2.2.1, (t.1 : ℚ), t.2.1, t.2.2.2⟩

/-- Encoding of a raw 5-slot funding trade record
`[ID, MTS, AMOUNT, RATE, PERIOD]` (id and period integers). -/
def encFundingTrade (t : ℤ × ℚ × ℚ × ℚ × ℤ) : JsonValue :=
  .arr [.num (t.1 : ℚ), .num t.2.1, .num t.2.2.1, .num t.2.2.2.1,
    .num (t.2.2.2.2 : ℚ)]

/-- The named record the funding mapping produces for such a raw record. -/
def decFundingTrade (t : ℤ × ℚ × ℚ × ℚ × ℤ) : V2TradesHist.OutputCurrency :=
  ⟨t.2.2.1, (t.1 : ℚ), t.2.1, (t.2.2.2.2 : ℚ), t.2.2.2.1⟩

/-- Helper: a string matching the tagged regex for `p` cannot match the
tagged regex for a different first character `c`. -/
theorem matchTaggedRegex_false_of_ne (p c : Char) (s : String)
    (h : matchTaggedRegex p s = true) (hne : c ≠ p) :
    matchTaggedRegex c s = false := by
  unfold matchTaggedRegex at h ⊢
  cases hd : s.data with
  | nil => rfl
  | cons a l =>
    rw [hd] at h
    replace h : (decide (a = p) && !l.isEmpty && l.all isWordColonChar)
        = true := h
    show (decide (a = c) && !l.isEmpty && l.all isWordColonChar) = false
    simp only [Bool.and_eq_true, decide_eq_true_eq] at h
    have hac : ¬ (a = c) := fun hac => hne (hac ▸ h.1.1)
    simp [hac]

/-- C2: a raw ticker array of length 11 decodes as the trading-pair shape
through `PAIR_INDEX`, one of length 17 decodes as the funding-currency
shape through `CURRENCY_INDEX` (slots 14 and 15 being ignored), and every
other length makes `parseOutput` fail validation. -/
theorem v2Ticker_parseOutput_length_dispatch
    (s u : String) (q1 q2 q3 q4 q5 q6 q7 q8 q9 q10 : ℚ)
    (frr bp bper bs ap aper asz dc dcp lp vol hi lo fav : ℚ)
    (v14 v15 : JsonValue) (xs : List JsonValue)
    (hs : matchTaggedRegex 't' (jsTrim s) = true)
    (hu : matchTaggedRegex 'f' (jsTrim u) = true)
    (hbper : bper.den = 1) (haper : aper.den = 1)
    (h11 : xs.length ≠ 11) (h17 : xs.length ≠ 17) :
    V2Ticker.parseOutput [.str s, .num q1, .num q2, .num q3, .num q4,
        .num q5, .num q6, .num q7, .num q8, .num q9, .num q10] =
      .ok (.pair ⟨jsTrim s, q1, q2, q3, q4, q5, q6, q7, q8, q9, q10,
        jsSlice1 (jsTrim s)⟩) ∧
    V2Ticker.parseOutput [.str u, .num frr, .num bp, .num bper, .num bs,
        .num ap, .num aper, .num asz, .num dc, .num dcp, .num lp, .num vol,
        .num hi, .num lo, v14, v15, .num fav] =
      .ok (.currency ⟨jsTrim u, frr, bp, bper, bs, ap, aper, asz, dc, dcp,
        lp, vol, hi, lo, fav, jsSlice1 (jsTrim u), round8 (frr * 100),
        round8 (frr * 365 * 100)⟩) ∧
    ∃ e, V2Ticker.parseOutput xs = .error e := by
  refine ⟨?_, ?_, ?_⟩
  · simp [V2Ticker.parseOutput, V2Ticker.zodOutputParse, V2Ticker.parsePairObj,
      V2Ticker.PAIR_INDEX, mapIndexObj, getField, getAtNull, zStrTrimRegex,
      zNumber, hs]
    rfl
  · have hnt : matchTaggedRegex 't' (jsTrim u) = false :=
      matchTaggedRegex_false_of_ne 'f' 't' (jsTrim u) hu (by decide)
    simp [V2Ticker.parseOutput, V2Ticker.zodOutputParse, V2Ticker.parsePairObj,
      V2Ticker.parseCurrencyObj, V2Ticker.PAIR_INDEX, V2Ticker.CURRENCY_INDEX,
      mapIndexObj, getField, getAtNull, zStrTrimRegex, zNumber, zInt,
      hu, hnt, hbper, haper]
    rfl
  · refine ⟨"expected string", ?_⟩
    simp [V2Ticker.parseOutput, h11, h17]
    rfl

/-- Witness for C2 at concrete inputs: a length-11 payload, a length-17
payload and the empty payload. -/
theorem v2Ticker_parseOutput_length_dispatch_witness :
    V2Ticker.parseOutput [.str "tBTCUSD", .num 1, .num 2, .num 3, .num 4,
        .num 5, .num 6, .num 7, .num 8, .num 9, .num 10] =
      .ok (.pair ⟨jsTrim "tBTCUSD", 1, 2, 3, 4, 5, 6, 7, 8, 9, 10,
        jsSlice1 (jsTrim "tBTCUSD")⟩) ∧
    V2Ticker.parseOutput [.str "fUSD", .num 100, .num 2, .num 30, .num 4,
        .num 5, .num 2, .num 7, .num 8, .num 9, .num 10, .num 11, .num 12,
        .num 13, .null, .null, .num 14] =
      .ok (.currency ⟨jsTrim "fUSD", 100, 2, 30, 4, 5, 2, 7, 8, 9, 10, 11,
        12, 13, 14, jsSlice1 (jsTrim "fUSD"), round8 (100 * 100),
        round8 (100 * 365 * 100)⟩) ∧
    ∃ e, V2Ticker.parseOutput [] = .error e :=
  v2Ticker_parseOutput_length_dispatch "tBTCUSD" "fUSD" 1 2 3 4 5 6 7 8 9 10
    100 2 30 4 5 2 7 8 9 10 11 12 13 14 .null .null []
    (by decide) (by decide) (by decide) (by decide) (by decide) (by decide)

/-- C4: the funding-currency ticker decoder derives `dpr = frr × 100` and
`apr = frr × 365 × 100`, and the funding-statistics decoder derives
`frr = r365 × 365` and `apr = r365 × 365 × 365`, each rounded to 8 decimal
places; in particular `frr = 0.0001` gives `dpr = 0.01` and `apr = 3.65`,
and `r365 = 0.0000009` gives `0.0003285` and `0.1199025`. -/
theorem derived_rate_formulas (frr r365 : ℚ) :
    V2Ticker.parseOutput [.str "fUSD", .num frr, .num 2, .num 30, .num 4,
        .num 5, .num 2, .num 7, .num 8, .num 9, .num 10, .num 11, .num 12,
        .num 13, .null, .null, .num 14] =
      .ok (.currency ⟨"fUSD", frr, 2, 30, 4, 5, 2, 7, 8, 9, 10, 11, 12, 13,
        14, "USD", round8 (frr * 100), round8 (frr * 365 * 100)⟩) ∧
    V2FundingStats.parseOutput [.arr [.num 0, .null, .null, .num r365,
        .num 2, .null, .null, .num 3, .num 4, .null, .null, .num 5]] =
      .ok [⟨0, r365, 2, 3, 4, 5, round8 (r365 * 365),
        round8 (r365 * 365 * 365)⟩] ∧
    round8 ((1/10000 : ℚ) * 100) = 1/100 ∧
    round8 ((1/10000 : ℚ) * 365 * 100) = 73/20 ∧
    round8 ((9/10000000 : ℚ) * 365) = 3285/10000000 ∧
    round8 ((9/10000000 : ℚ) * 365 * 365) = 1199025/10000000 := by
  refine ⟨?_, ?_, ?_, ?_, ?_, ?_⟩
  · rfl
  · have h : r365 * 365 * 365 = r365 * 133225 := by ring
    rw [h]; rfl
  · rw [round8]; norm_num
  · rw [round8]; norm_num
  · rw [round8]; norm_num
  · rw [round8]; norm_num

/-- C1 counterexample: truncating a positional record does not, in general,
produce `null`-valued named fields without error.  A funding-stats record
truncated to 4 of its 12 slots fails decoding (the absent plain-number
slots reject `null`), and a tickers-history record with 4 of its 13 slots
decodes with the absent `mts` field coerced to the epoch timestamp 0, not
kept as a null field. -/
theorem truncated_decode_counterexample :
    V2FundingStats.parseOutput
        [.arr [.num 0, .null, .null, .num (9/10000000)]] =
      .error "expected number" ∧
    V2TickersHist.parseOutput [.arr [.str "tBTCUSD", .num 1, .null, .num 2]] =
      .ok [⟨"tBTCUSD", 1, 2, 0, some "BTCUSD"⟩] := by
  constructor
  · rfl
  · rfl

/-- C1 amended: an out-of-range mapped index is read as `null` at the
indexing step (never an index error), and that `null` then goes through the
field schema: a date-coerced field turns it into the epoch timestamp (so a
tickers-history record with only 4 of its 13 slots still decodes, with
`mts` = 0), while a plain-number field rejects it as a hard validation
failure (so a funding-stats record with only 4 of its 12 slots fails). -/
theorem truncated_decode_amended (xs : List JsonValue) (i : Nat) (s : String)
    (b a r : ℚ) (v2 : JsonValue)
    (hlen : xs.length ≤ i) (hs : matchKeyRegex (jsTrim s) = true) :
    getAtNull xs i = JsonValue.null ∧
    V2TickersHist.parseOutput [.arr [.str s, .num b, v2, .num a]] =
      .ok [⟨jsTrim s, b, a, 0,
        if jsFirstCharIs 't' (jsTrim s) then some (jsSlice1 (jsTrim s))
        else none⟩] ∧
    V2FundingStats.parseOutput [.arr [.num 0, .null, .null, .num r]] =
      .error "expected number" := by
  refine ⟨?_, ?_, ?_⟩
  · simp [getAtNull, List.getElem?_eq_none hlen]
  · have hrec : V2TickersHist.parseHistRec
        (.arr [.str s, .num b, v2, .num a]) =
        .ok ⟨jsTrim s, b, a, 0,
          if jsFirstCharIs 't' (jsTrim s) then some (jsSlice1 (jsTrim s))
          else none⟩ := by
      simp [V2TickersHist.parseHistRec, V2TickersHist.OUTPUT_INDEX,
        mapIndexObjRec, recordGet, getField, getAtNull, zStrTrimRegex,
        zNumber, zCoerceDate, hs]
      rfl
    simp [V2TickersHist.parseOutput, List.mapM, List.mapM.loop, hrec]
  · rfl

/-- Witness for C1 amended at concrete inputs. -/
theorem truncated_decode_amended_witness :
    getAtNull [.num 1] 3 = JsonValue.null ∧
    V2TickersHist.parseOutput [.arr [.str "tBTCUSD", .num 1, .null, .num 2]] =
      .ok [⟨jsTrim "tBTCUSD", 1, 2, 0,
        if jsFirstCharIs 't' (jsTrim "tBTCUSD")
        then some (jsSlice1 (jsTrim "tBTCUSD")) else none⟩] ∧
    V2FundingStats.parseOutput [.arr [.num 0, .null, .null, .num 2]] =
      .error "expected number" :=
  truncated_decode_amended [.num 1] 3 "tBTCUSD" 1 2 2 .null
    (by decide) (by decide)

/-- C3 counterexample: an input supplying both a `pair` and a `currency`
selector does not fail validation — the union accepts it as the pair
alternative and silently ignores the `currency` key, producing `tBTCUSD`. -/
theorem selector_union_counterexample :
    V2Ticker.zodInputParse ⟨some "BTCUSD", some "USD", none⟩ =
      .ok "tBTCUSD" := by
  rfl

/-- C3 amended: supplying none of the selectors `pair`, `currency`,
`symbol` fails input validation before any request; but supplying more
than one selector is accepted, the union resolving it to the first
matching alternative in the fixed order pair, currency, symbol. -/
theorem selector_union_amended (s u : String) (c sym sym2 : Option String)
    (hs : matchKeyRegex (jsTrim s) = true)
    (hu : matchKeyRegex (jsTrim u) = true) :
    V2Ticker.zodInputParse ⟨none, none, none⟩ = .error "symbol required" ∧
    V2Ticker.zodInputParse ⟨some s, c, sym⟩ =
      .ok ("t" ++ jsToUpper (jsTrim s)) ∧
    V2Ticker.zodInputParse ⟨none, some u, sym2⟩ =
      .ok ("f" ++ jsToUpper (jsTrim u)) := by
  refine ⟨rfl, ?_, ?_⟩
  · simp [V2Ticker.zodInputParse, V2Ticker.zodInputPair, hs]
  · simp [V2Ticker.zodInputParse, V2Ticker.zodInputPair,
      V2Ticker.zodInputCurrency, hu]

/-- Witness for C3 amended at concrete inputs: both extra selectors
supplied alongside `pair`, and a `symbol` supplied alongside `currency`. -/
theorem selector_union_amended_witness :
    V2Ticker.zodInputParse ⟨none, none, none⟩ = .error "symbol required" ∧
    V2Ticker.zodInputParse ⟨some "BTCUSD", some "USD", some "tETHUSD"⟩ =
      .ok ("t" ++ jsToUpper (jsTrim "BTCUSD")) ∧
    V2Ticker.zodInputParse ⟨none, some "USD", some "tETHUSD"⟩ =
      .ok ("f" ++ jsToUpper (jsTrim "USD")) :=
  selector_union_amended "BTCUSD" "USD" (some "USD") (some "tETHUSD")
    (some "tETHUSD") (by decide) (by decide)

/-- C5: requesting config keys `["A","B"]` against the parallel response
`[[1,2],[3,4]]` yields the map `{A: [1,2], B: [3,4]}` in request order,
while requesting the single key `"A"` as a string yields the bare first
response value `[1,2]`. -/
theorem v2Config_zip :
    V2Config.v2Config (some (.arr ["A", "B"]))
        [.arr [.num 1, .num 2], .arr [.num 3, .num 4]] =
      .ok (.object [("A", some (.arr [.num 1, .num 2])),
        ("B", some (.arr [.num 3, .num 4]))]) ∧
    V2Config.v2Config (some (.str "A")) [.arr [.num 1, .num 2]] =
      .ok (.val (some (.arr [.num 1, .num 2]))) := by
  exact ⟨rfl, rfl⟩

/-- C10: a one-element list of config keys yields a one-entry map, not the
bare value; the bare-value unwrapping happens exactly when the argument is
a single string. -/
theorem v2Config_single_key (s : String) (vs : List JsonValue)
    (hs : matchKeyRegex (jsTrim s) = true) :
    V2Config.v2Config (some (.arr [s])) vs =
      .ok (.object [(jsTrim s, vs.get? 0)]) ∧
    V2Config.v2Config (some (.str s)) vs = .ok (.val vs.head?) := by
  constructor
  · simp [V2Config.v2Config, V2Config.zodInputParse,
      V2Config.zodInputConfigKey, hs, V2Config.zipObject, List.mapM,
      List.mapM.loop]
    rfl
  · simp [V2Config.v2Config, V2Config.zodInputParse,
      V2Config.zodInputConfigKey, hs]
    rfl

/-- Witness for C10 at a concrete key and response. -/
theorem v2Config_single_key_witness :
    V2Config.v2Config (some (.arr ["A"])) [.arr [.num 1, .num 2]] =
      .ok (.object [(jsTrim "A", [JsonValue.arr [.num 1, .num 2]].get? 0)]) ∧
    V2Config.v2Config (some (.str "A")) [.arr [.num 1, .num 2]] =
      .ok (.val [JsonValue.arr [.num 1, .num 2]].head?) :=
  v2Config_single_key "A" [.arr [.num 1, .num 2]] (by decide)

/-- Helper: mapping a decoder over encoded values succeeds elementwise. -/
theorem mapM_map_ok {α β γ : Type} (f : β → Except String γ) (enc : α → β)
    (dec : α → γ) (hf : ∀ a, f (enc a) = .ok (dec a)) (l : List α) :
    (l.map enc).mapM f = .ok (l.map dec) := by
  rw [← List.mapM'_eq_mapM]
  induction l with
  | nil => rfl
  | cons a t ih =>
    simp [List.mapM', hf a, ih, Except.bind]
    rfl


/-- Helper: one 4-slot record decodes through the pair mapping. -/
theorem parsePairRec_enc (t : ℤ × ℚ × ℚ × ℚ) :
    V2TradesHist.parsePairRec (encPairTrade t) = .ok (decPairTrade t) := by
  simp [V2TradesHist.parsePairRec, encPairTrade, decPairTrade,
    V2TradesHist.PAIR_INDEX, mapIndexObjRec, recordGet, getField, getAtNull,
    zNumber, zInt, zCoerceDate, Rat.den_intCast]
  rfl

/-- Helper: one 5-slot record decodes through the funding mapping. -/
theorem parseCurrencyRec_enc (t : ℤ × ℚ × ℚ × ℚ × ℤ) :
    V2TradesHist.parseCurrencyRec (encFundingTrade t) =
      .ok (decFundingTrade t) := by
  simp [V2TradesHist.parseCurrencyRec, encFundingTrade, decFundingTrade,
    V2TradesHist.CURRENCY_INDEX, mapIndexObjRec, recordGet, getField,
    getAtNull, zNumber, zInt, zCoerceDate, Rat.den_intCast]
  rfl

/-- C6: a batch of 4-slot records decodes every record with the
trading-pair mapping, a non-empty batch of 5-slot records decodes every
record with the funding mapping, and a non-empty batch whose leading
record has any other slot count (as is the case when all records do)
raises a decode error. -/
theorem v2TradesHist_length_dispatch
    (lp : List (ℤ × ℚ × ℚ × ℚ))
    (tf : ℤ × ℚ × ℚ × ℚ × ℤ) (lf : List (ℤ × ℚ × ℚ × ℚ × ℤ))
    (r0 : List JsonValue) (rest : List (List JsonValue))
    (h4 : r0.length ≠ 4) (h5 : r0.length ≠ 5) :
    V2TradesHist.parseOutput (lp.map encPairTrade) =
      .ok (.pairs (lp.map decPairTrade)) ∧
    V2TradesHist.parseOutput ((tf :: lf).map encFundingTrade) =
      .ok (.currencys ((tf :: lf).map decFundingTrade)) ∧
    V2TradesHist.parseOutput ((r0 :: rest).map .arr) =
      .error "unable to parse output" := by
  refine ⟨?_, ?_, ?_⟩
  · cases lp with
    | nil => rfl
    | cons t l =>
      have h := mapM_map_ok V2TradesHist.parsePairRec encPairTrade
        decPairTrade parsePairRec_enc (t :: l)
      unfold V2TradesHist.parseOutput
      rw [List.map_cons] at h
      rw [List.map_cons, if_neg (by simp), if_pos (by rfl), h]
      rfl
  · have h := mapM_map_ok V2TradesHist.parseCurrencyRec encFundingTrade
      decFundingTrade parseCurrencyRec_enc (tf :: lf)
    unfold V2TradesHist.parseOutput
    rw [List.map_cons] at h
    rw [List.map_cons, if_neg (by simp),
      if_neg (by simp [encFundingTrade, V2TradesHist.headLen]),
      if_pos (by rfl), h]
    rfl
  · unfold V2TradesHist.parseOutput
    rw [List.map_cons, if_neg (by simp),
      if_neg (by simp [V2TradesHist.headLen, h4]),
      if_neg (by simp [V2TradesHist.headLen, h5])]

/-- Witness for C6 at concrete batches. -/
theorem v2TradesHist_length_dispatch_witness :
    V2TradesHist.parseOutput ([(1, 2, 3, 4)].map encPairTrade) =
      .ok (.pairs ([(1, 2, 3, 4)].map decPairTrade)) ∧
    V2TradesHist.parseOutput (((1, 2, 3, 4, 5) :: []).map encFundingTrade) =
      .ok (.currencys (((1, 2, 3, 4, 5) :: []).map decFundingTrade)) ∧
    V2TradesHist.parseOutput ([[JsonValue.num 1]].map .arr) =
      .error "unable to parse output" :=
  v2TradesHist_length_dispatch [(1, 2, 3, 4)] (1, 2, 3, 4, 5) []
    [JsonValue.num 1] [] (by decide) (by decide)

/-- C7: a nil auto-renew-status payload decodes to a typed `null` (not an
error, not an empty record), while a non-null array payload decodes to the
named record `{currency, period, rate, amount}`. -/
theorem v2AuthReadFundingAutoStatus_nullable (c : String) (p : ℤ)
    (r a : ℚ) :
    V2AuthReadFundingAutoStatus.parseOutput none = .ok none ∧
    V2AuthReadFundingAutoStatus.parseOutput
        (some [.str c, .num (p : ℚ), .num r, .num a]) =
      .ok (some ⟨a, c, (p : ℚ), r⟩) := by
  constructor
  · rfl
  · simp [V2AuthReadFundingAutoStatus.parseOutput,
      V2AuthReadFundingAutoStatus.OUTPUT_INDEX, mapIndexObj, getField,
      getAtNull, zString, zInt, zNumber, Rat.den_intCast]
    rfl

/-- C8: each endpoint input schema enforces its declared `limit` upper
bound — 10000 for trades history, 250 for tickers history, 500 for
funding-credits history, 2500 for ledgers history — rejecting a larger
value with a validation error and accepting a value within the bound
unchanged. -/
theorem limit_upper_bounds
    (q1 q2 q3 q4 p1 p2 p3 p4 : ℚ)
    (hq1 : q1.den = 1) (hb1 : q1 ≤ 10000)
    (hq2 : q2.den = 1) (hb2 : q2 ≤ 250)
    (hq3 : q3.den = 1) (hb3 : q3 ≤ 500)
    (hq4 : q4.den = 1) (hb4 : q4 ≤ 2500)
    (hp1 : p1.den = 1) (hx1 : 10000 < p1)
    (hp2 : p2.den = 1) (hx2 : 250 < p2)
    (hp3 : p3.den = 1) (hx3 : 500 < p3)
    (hp4 : p4.den = 1) (hx4 : 2500 < p4) :
    V2TradesHist.zodInputBaseParse ⟨none, some q1, none, none⟩ =
      .ok ⟨none, q1, "-1", none⟩ ∧
    V2TradesHist.zodInputBaseParse ⟨none, some p1, none, none⟩ =
      .error "limit too large" ∧
    V2TickersHist.zodInputParse ⟨none, none, none, some q2⟩ =
      .ok ⟨"ALL", none, none, q2⟩ ∧
    V2TickersHist.zodInputParse ⟨none, none, none, some p2⟩ =
      .error "limit too large" ∧
    V2AuthReadFundingCreditsHist.zodInputParse ⟨none, none, some q3, none⟩ =
      .ok ⟨none, none, q3, none⟩ ∧
    V2AuthReadFundingCreditsHist.zodInputParse ⟨none, none, some p3, none⟩ =
      .error "limit too large" ∧
    V2AuthReadLedgersHist.zodInputParse ⟨none, none, some q4, none, none⟩ =
      .ok ⟨none, none, some q4, none, none⟩ ∧
    V2AuthReadLedgersHist.zodInputParse ⟨none, none, some p4, none, none⟩ =
      .error "limit too large" := by
  refine ⟨?_, ?_, ?_, ?_, ?_, ?_, ?_, ?_⟩
  · simp [V2TradesHist.zodInputBaseParse, V2TickersHist.zOptDate,
      V2TickersHist.zLimitD, V2TradesHist.zSortDefaultDesc, hq1, hb1]
    rfl
  · simp [V2TradesHist.zodInputBaseParse, V2TickersHist.zOptDate,
      V2TickersHist.zLimitD, hp1, not_le.mpr hx1]
    rfl
  · simp [V2TickersHist.zodInputParse, V2TickersHist.zodSymbols,
      V2TickersHist.zOptDate, V2TickersHist.zLimitD, hq2, hb2]
    rfl
  · simp [V2TickersHist.zodInputParse, V2TickersHist.zodSymbols,
      V2TickersHist.zOptDate, V2TickersHist.zLimitD, hp2, not_le.mpr hx2]
    rfl
  · simp [V2AuthReadFundingCreditsHist.zodInputParse,
      V2AuthReadFundingCreditsHist.zCurrencyOpt, V2TickersHist.zOptDate,
      V2TickersHist.zLimitD, hq3, hb3]
    rfl
  · simp [V2AuthReadFundingCreditsHist.zodInputParse,
      V2AuthReadFundingCreditsHist.zCurrencyOpt, V2TickersHist.zOptDate,
      V2TickersHist.zLimitD, hp3, not_le.mpr hx3]
    rfl
  · simp [V2AuthReadLedgersHist.zodInputParse,
      V2AuthReadFundingCreditsHist.zCurrencyOpt,
      V2AuthReadLedgersHist.zCategoryOpt, V2TickersHist.zOptDate,
      V2TickersHist.zLimitO, hq4, hb4]
    rfl
  · simp [V2AuthReadLedgersHist.zodInputParse,
      V2AuthReadFundingCreditsHist.zCurrencyOpt,
      V2AuthReadLedgersHist.zCategoryOpt, V2TickersHist.zOptDate,
      V2TickersHist.zLimitO, hp4, not_le.mpr hx4]
    rfl

/-- Witness for C8 at each bound and one past each bound. -/
theorem limit_upper_bounds_witness :
    V2TradesHist.zodInputBaseParse ⟨none, some 10000, none, none⟩ =
      .ok ⟨none, 10000, "-1", none⟩ ∧
    V2TradesHist.zodInputBaseParse ⟨none, some 10001, none, none⟩ =
      .error "limit too large" ∧
    V2TickersHist.zodInputParse ⟨none, none, none, some 250⟩ =
      .ok ⟨"ALL", none, none, 250⟩ ∧
    V2TickersHist.zodInputParse ⟨none, none, none, some 251⟩ =
      .error "limit too large" ∧
    V2AuthReadFundingCreditsHist.zodInputParse ⟨none, none, some 500, none⟩ =
      .ok ⟨none, none, 500, none⟩ ∧
    V2AuthReadFundingCreditsHist.zodInputParse ⟨none, none, some 501, none⟩ =
      .error "limit too large" ∧
    V2AuthReadLedgersHist.zodInputParse ⟨none, none, some 2500, none, none⟩ =
      .ok ⟨none, none, some 2500, none, none⟩ ∧
    V2AuthReadLedgersHist.zodInputParse ⟨none, none, some 2501, none, none⟩ =
      .error "limit too large" :=
  limit_upper_bounds 10000 250 500 2500 10001 251 501 2501
    (by norm_num) (by norm_num) (by norm_num) (by norm_num)
    (by norm_num) (by norm_num) (by norm_num) (by norm_num)
    (by norm_num) (by norm_num) (by norm_num) (by norm_num)
    (by norm_num) (by norm_num) (by norm_num) (by norm_num)

/-- C9 counterexample: two distinct authenticated calls issued in the same
clock millisecond receive the very same nonce value, so a nonce value can
be reused within a process lifetime. -/
theorem nonce_reuse_counterexample :
    Nonce.authCallNonces [1760227200000, 1760227200000] =
      [1760227200000000, 1760227200000000] ∧
    (Nonce.authCallNonces [1760227200000, 1760227200000]).get? 0 =
      (Nonce.authCallNonces [1760227200000, 1760227200000]).get? 1 := by
  exact ⟨by decide, by decide⟩

/-- C9 amended: a fresh nonce is generated on every authenticated call as
1000 times the current millisecond clock reading, so nonces are strictly
increasing — hence pairwise distinct — whenever the clock readings of the
calls strictly increase; only calls sharing a clock millisecond share a
nonce. -/
theorem nonce_fresh_per_call (clocks : List ℕ)
    (h : clocks.Pairwise (· < ·)) :
    (Nonce.authCallNonces clocks).length = clocks.length ∧
    (Nonce.authCallNonces clocks).Pairwise (· < ·) ∧
    (Nonce.authCallNonces clocks).Pairwise (· ≠ ·) := by
  have hmap : (Nonce.authCallNonces clocks).Pairwise (· < ·) := by
    rw [Nonce.authCallNonces]
    exact List.Pairwise.map Nonce.createNonce
      (fun a b hab => by
        simp only [Nonce.createNonce]
        exact (Nat.mul_lt_mul_right (by norm_num)).mpr hab) h
  refine ⟨by simp [Nonce.authCallNonces], hmap, ?_⟩
  exact hmap.imp Nat.ne_of_lt

/-- Witness for C9 amended: three calls at strictly increasing clocks. -/
theorem nonce_fresh_per_call_witness :
    (Nonce.authCallNonces [100, 200, 300]).length = [100, 200, 300].length ∧
    (Nonce.authCallNonces [100, 200, 300]).Pairwise (· < ·) ∧
    (Nonce.authCallNonces [100, 200, 300]).Pairwise (· ≠ ·) :=
  nonce_fresh_per_call [100, 200, 300] (by decide)

/-- Witness for C4 at the concrete rates of the specification:
`frr = 0.0001` and `r365 = 0.0000009`. -/
theorem derived_rate_formulas_witness :
    V2Ticker.parseOutput [.str "fUSD", .num (1/10000), .num 2, .num 30,
        .num 4, .num 5, .num 2, .num 7, .num 8, .num 9, .num 10, .num 11,
        .num 12, .num 13, .null, .null, .num 14] =
      .ok (.currency ⟨"fUSD", 1/10000, 2, 30, 4, 5, 2, 7, 8, 9, 10, 11, 12,
        13, 14, "USD", round8 ((1/10000) * 100),
        round8 ((1/10000) * 365 * 100)⟩) ∧
    V2FundingStats.parseOutput [.arr [.num 0, .null, .null,
        .num (9/10000000), .num 2, .null, .null, .num 3, .num 4, .null,
        .null, .num 5]] =
      .ok [⟨0, 9/10000000, 2, 3, 4, 5, round8 ((9/10000000) * 365),
        round8 ((9/10000000) * 365 * 365)⟩] ∧
    round8 ((1/10000 : ℚ) * 100) = 1/100 ∧
    round8 ((1/10000 : ℚ) * 365 * 100) = 73/20 ∧
    round8 ((9/10000000 : ℚ) * 365) = 3285/10000000 ∧
    round8 ((9/10000000 : ℚ) * 365 * 365) = 1199025/10000000 :=
  derived_rate_formulas (1/10000) (9/10000000)

/-- Witness for C7 at a concrete payload. -/
theorem v2AuthReadFundingAutoStatus_nullable_witness :
    V2AuthReadFundingAutoStatus.parseOutput none = .ok none ∧
    V2AuthReadFundingAutoStatus.parseOutput
        (some [.str "USD", .num ((2 : ℤ) : ℚ), .num 3, .num 4]) =
      .ok (some ⟨4, "USD", ((2 : ℤ) : ℚ), 3⟩) :=
  v2AuthReadFundingAutoStatus_nullable "USD" 2 3 4
